import Mathlib

/-!
Shallow embedding of the authentication/authorization core of the
online-diagram-app backend (src/app/security.py, src/app/crud.py,
src/app/main.py, src/app/schemas.py, src/app/models.py), together with
theorems settling the spec claims about it.

Machine integers of the source are modelled as `Nat` (ids, timestamps in
seconds); fallible operations return `Option` / explicit result types.
-/

namespace DiagramApp

/-! ## Data model (src/app/models.py) -/

/-- Opaque password hash, `models.User.password_hash`.
Modelled from the spec: the external passlib `CryptContext` hasher
(src/app/security.py delegates to it) is idealized as a salted,
collision-free digest: the encoding carries the scheme tag, the salt and
a digest that is an injective function of (scheme, salt, password). -/
structure PwdHash where
  scheme : String
  salt : String
  digest : List String
deriving Repr, DecidableEq

/-- Row of the `users` table (class `User` in src/app/models.py). -/
structure User where
  id : Nat
  username : String
  email : String
  password_hash : PwdHash
  created_at : Nat
deriving Repr, DecidableEq

/-- Row of the `diagrams` table (class `Diagram` in src/app/models.py).
The JSON `content` column is kept opaque as `Option String` (nullable). -/
structure Diagram where
  id : Nat
  title : String
  content : Option String
  share_uuid : Option String
  created_at : Nat
  updated_at : Nat
  user_id : Nat
deriving Repr, DecidableEq

/-! ## Credential hasher (src/app/security.py, lines 15-23)

`pwd_context = CryptContext(schemes=["argon2", "bcrypt"], deprecated="auto")`.
Hashing always uses the preferred scheme (argon2); verification accepts any
scheme listed in the context. The internal random salt is made an explicit
argument. -/

/-- Schemes accepted by the `CryptContext` in src/app/security.py. -/
def pwd_schemes : List String := ["argon2", "bcrypt"]

/-- Modelled from the spec: the digest computed by the memory-hard hash,
idealized as injective in (scheme, salt, password). -/
def ideal_digest (scheme salt password : String) : List String :=
  [scheme, salt, password]

/-- Embeds `get_password_hash` of src/app/security.py: hash with the preferred
scheme (argon2), salted. -/
def get_password_hash (password : String) (salt : String) : PwdHash :=
  { scheme := "argon2", salt := salt
    digest := ideal_digest "argon2" salt password }

/-- Embeds `verify_password` of src/app/security.py: recompute with the
parameters embedded in the opaque hash and compare; true iff match and
the scheme is one the context supports. -/
def verify_password (plain_password : String) (hashed_password : PwdHash) : Bool :=
  pwd_schemes.contains hashed_password.scheme
    && ideal_digest hashed_password.scheme hashed_password.salt plain_password
        == hashed_password.digest

/-! ## Token service (src/app/security.py, lines 27-39)

The external jose JWT library is modelled abstractly: a token is either a
structurally valid signed triple (payload, key, algorithm) or malformed
garbage. `jwt.decode` checks the signature (key and algorithm must match),
then expiry. -/

/-- Embeds `SECRET_KEY` constant of src/app/security.py. -/
def SECRET_KEY : String :=
  "376a6fe3ab778d2071075697dbf498f957fb79bc109156c665960b83fe61ed42"

/-- Embeds `ALGORITHM` constant of src/app/security.py. -/
def ALGORITHM : String := "HS256"

/-- Embeds `ACCESS_TOKEN_EXPIRE_MINUTES` constant of src/app/security.py. -/
def ACCESS_TOKEN_EXPIRE_MINUTES : Nat := 300

/-- JWT claims actually used by the code: the `sub` claim (may be absent)
and the `exp` claim set by `create_access_token` (seconds). -/
structure JwtPayload where
  sub : Option String
  exp : Nat
deriving Repr, DecidableEq

/-- A bearer token as seen by `jwt.decode`: either a well-formed token
signed with some key and algorithm, or a structurally invalid string. -/
inductive Token where
  | signed (payload : JwtPayload) (key : String) (alg : String)
  | malformed (raw : String)
deriving Repr, DecidableEq

/-- Failure modes of JWT verification (all raised as `JWTError` subclasses
by the jose library). -/
inductive JwtError where
  | malformed
  | invalidSignature
  | expired
deriving Repr, DecidableEq

/-- Modelled from the spec: `jwt.decode` of the external jose library.
Fails with `InvalidSignature` if the signature does not match (wrong key
or an algorithm outside the accepted list), with `Expired` if
`now >= expiry` (spec section 4.2), with `Malformed` if the token cannot
be parsed; otherwise returns the payload. -/
def jwt_decode (token : Token) (key : String) (algorithms : List String)
    (now : Nat) : Except JwtError JwtPayload :=
  match token with
  | .malformed _ => .error .malformed
  | .signed payload k alg =>
    if k == key && algorithms.contains alg then
      if payload.exp ≤ now then .error .expired
      else .ok payload
    else .error .invalidSignature

/-- Embeds `create_access_token` of src/app/security.py: copy the data (its `sub`
claim), set `exp := now + ACCESS_TOKEN_EXPIRE_MINUTES` minutes, and sign
with `SECRET_KEY` under `ALGORITHM`. The clock is an explicit argument. -/
def create_access_token (data_sub : Option String) (now : Nat) : Token :=
  .signed { sub := data_sub, exp := now + ACCESS_TOKEN_EXPIRE_MINUTES * 60 }
    SECRET_KEY ALGORITHM

/-! ## User lookup (src/app/crud.py) -/

/-- Embeds `get_user_by_username` of src/app/crud.py:
`db.query(User).filter(User.username == username).first()`. -/
def get_user_by_username (db : List User) (username : String) : Option User :=
  db.find? (fun u => u.username == username)

/-- Embeds `get_user_by_email` of src/app/crud.py. -/
def get_user_by_email (db : List User) (email : String) : Option User :=
  db.find? (fun u => u.email == email)

/-! ## Identity resolver (src/app/security.py, lines 60-89) -/

/-- Result of the guard: the resolved principal, or an HTTP error with a
status code and detail message (an `HTTPException` in the source). -/
inductive AuthResult where
  | ok (user : User)
  | httpError (status : Nat) (detail : String)
deriving Repr, DecidableEq

/-- The one `credentials_exception` built at the top of
`get_current_user`: status 401 with a fixed generic detail. -/
def credentials_exception : AuthResult :=
  .httpError 401 "无法验证凭据 (Could not validate credentials)"

/-- Embeds `get_current_user` of src/app/security.py: decode the JWT with
`SECRET_KEY` and `[ALGORITHM]`; on any `JWTError`, or a missing `sub`
claim, raise `credentials_exception`; otherwise look the username up and
raise the same `credentials_exception` when no such user exists. -/
def get_current_user (token : Token) (db : List User) (now : Nat) : AuthResult :=
  match jwt_decode token SECRET_KEY [ALGORITHM] now with
  | .error _ => credentials_exception
  | .ok payload =>
    match payload.sub with
    | none => credentials_exception
    | some username =>
      match get_user_by_username db username with
      | none => credentials_exception
      | some user => .ok user

/-! ## Schemas (src/app/schemas.py) -/

/-- Embeds `UserOut` of src/app/schemas.py: the outward-facing user
representation; carries only id, username, email and created_at. -/
structure UserOut where
  id : Nat
  username : String
  email : String
  created_at : Nat
deriving Repr, DecidableEq

/-- Embeds `UserCreate` of src/app/schemas.py. -/
structure UserCreate where
  username : String
  email : String
  password : String
deriving Repr, DecidableEq

/-- The `response_model=schemas.UserOut` projection FastAPI applies to a
`models.User` before it leaves the service (`from_attributes = True`). -/
def userOutOfUser (u : User) : UserOut :=
  { id := u.id, username := u.username, email := u.email
    created_at := u.created_at }

/-- Modelled from the spec: the `DiagramUpdate` patch schema is referenced
by src/app/main.py and src/app/crud.py but its class is missing from
src/app/schemas.py. Per spec section 9 it is "an explicit patch structure
with optional fields per updatable attribute"; the updatable attributes
are the title and the content blob. The outer `Option` is pydantic
field-presence (`exclude_unset`); for the nullable content column the
carried value is itself optional. -/
structure DiagramUpdate where
  title : Option String
  content : Option (Option String)
deriving Repr, DecidableEq

/-! ## Diagram CRUD (src/app/crud.py) -/

/-- Embeds `get_diagram` of src/app/crud.py:
`db.query(Diagram).filter(Diagram.id == diagram_id).first()`. -/
def get_diagram (diagrams : List Diagram) (diagram_id : Nat) : Option Diagram :=
  diagrams.find? (fun d => d.id == diagram_id)

/-- Embeds `get_user_diagrams` of src/app/crud.py:
`query(Diagram).filter(Diagram.user_id == user_id).offset(skip).limit(limit).all()`. -/
def get_user_diagrams (diagrams : List Diagram) (user_id : Nat)
    (skip : Nat) (limit : Nat) : List Diagram :=
  (((diagrams.filter (fun d => d.user_id == user_id)).drop skip).take limit)

/-- Embeds `update_diagram` of src/app/crud.py: take the patch fields that were
actually set (`model_dump(exclude_unset=True)`) and assign them one by one
onto the stored row; every other attribute is left untouched. -/
def update_diagram (db_diagram : Diagram) (diagram_update : DiagramUpdate) : Diagram :=
  let d1 := match diagram_update.title with
    | some t => { db_diagram with title := t }
    | none => db_diagram
  match diagram_update.content with
  | some c => { d1 with content := c }
  | none => d1

/-- Embeds `delete_diagram` of src/app/crud.py: `db.delete(db_diagram)` removes
the row with that id from the store. -/
def delete_diagram (diagrams : List Diagram) (db_diagram : Diagram) : List Diagram :=
  diagrams.filter (fun d => !(d.id == db_diagram.id))

/-! ## Protected diagram routes (src/app/main.py)

Each route runs after `get_current_user` has resolved the principal
(`current_user`), so the routes are parametrised by it. Stateful routes
return the response together with the resulting diagram store. -/

/-- Response of a route: either the declared `response_model` value, or an
`HTTPException` with status and detail. -/
inductive RouteResult (α : Type) where
  | ok (value : α)
  | httpError (status : Nat) (detail : String)
deriving Repr, DecidableEq

/-- Embeds `read_diagram` of src/app/main.py (GET single diagram): 404 when the
id does not resolve, 403 when the owner is not the caller, otherwise the
diagram. -/
def read_diagram (diagrams : List Diagram) (diagram_id : Nat)
    (current_user : User) : RouteResult Diagram :=
  match get_diagram diagrams diagram_id with
  | none => .httpError 404 "流程图未找到"
  | some db_diagram =>
    if db_diagram.user_id != current_user.id then
      .httpError 403 "无权访问此资源"
    else
      .ok db_diagram

/-- Embeds `update_diagram_route` of src/app/main.py (PUT): same existence and
ownership checks as `read_diagram`, then `crud.update_diagram`; the
updated row replaces the stored one. -/
def update_diagram_route (diagrams : List Diagram) (diagram_id : Nat)
    (diagram_update : DiagramUpdate) (current_user : User) :
    RouteResult Diagram × List Diagram :=
  match get_diagram diagrams diagram_id with
  | none => (.httpError 404 "流程图未找到", diagrams)
  | some db_diagram =>
    if db_diagram.user_id != current_user.id then
      (.httpError 403 "无权访问此资源", diagrams)
    else
      let updated := update_diagram db_diagram diagram_update
      (.ok updated,
        diagrams.map (fun d => if d.id == db_diagram.id then updated else d))

/-- Embeds `delete_diagram_route` of src/app/main.py (DELETE): same existence
and ownership checks, then `crud.delete_diagram`; 204 carries no body. -/
def delete_diagram_route (diagrams : List Diagram) (diagram_id : Nat)
    (current_user : User) : RouteResult Unit × List Diagram :=
  match get_diagram diagrams diagram_id with
  | none => (.httpError 404 "流程图未找到", diagrams)
  | some db_diagram =>
    if db_diagram.user_id != current_user.id then
      (.httpError 403 "无权访问此资源", diagrams)
    else
      (.ok (), delete_diagram diagrams db_diagram)

/-- Embeds `read_diagrams` of src/app/main.py (GET list): query parameters
`skip` and `limit` default to 0 and 100 when absent; the list is always
scoped to the caller. -/
def read_diagrams (diagrams : List Diagram) (skip : Option Nat)
    (limit : Option Nat) (current_user : User) : List Diagram :=
  get_user_diagrams diagrams current_user.id (skip.getD 0) (limit.getD 100)

/-! ## User routes (src/app/main.py) -/

/-- Embeds `read_users_me` of src/app/main.py: returns the resolved principal,
shaped by `response_model=schemas.UserOut`. -/
def read_users_me (current_user : User) : UserOut :=
  userOutOfUser current_user

/-- Embeds `register_user` of src/app/main.py: reject duplicate username, then
duplicate email, with 400; otherwise `crud.create_user` hashes the
password (the hasher's internal salt is the explicit `salt` argument),
stores the row (the database assigns `fresh_id` and `now`), and the
response is shaped by `response_model=schemas.UserOut`. -/
def register_user (users : List User) (user : UserCreate)
    (salt : String) (fresh_id : Nat) (now : Nat) :
    RouteResult UserOut × List User :=
  match get_user_by_username users user.username with
  | some _ => (.httpError 400 "用户名已被注册", users)
  | none =>
    match get_user_by_email users user.email with
    | some _ => (.httpError 400 "邮箱已被注册", users)
    | none =>
      let new_user : User :=
        { id := fresh_id, username := user.username, email := user.email
          password_hash := get_password_hash user.password salt
          created_at := now }
      (.ok (userOutOfUser new_user), users ++ [new_user])

/-! ## The ownership decision, stated once (spec section 4.4)

Spec-side definition for the refinement claim: `authorize(principal,
resource)` with the caller-resolved existence check folded in —
`NotFound` when the id does not resolve, `Forbidden` when the owner
reference differs from the principal, `Allowed` (carrying the resource)
otherwise. The three routes are proved to implement exactly this one
decision. -/

/-- Modelled from the spec: the single reusable Ownership Check decision
of spec section 4.4. -/
def authorize (diagrams : List Diagram) (diagram_id : Nat)
    (principal : User) : RouteResult Diagram :=
  match get_diagram diagrams diagram_id with
  | none => .httpError 404 "流程图未找到"
  | some resource =>
    if resource.user_id == principal.id then .ok resource
    else .httpError 403 "无权访问此资源"

/-- Projection of a route response onto its allow/deny outcome: `none`
when allowed, `some (status, detail)` when denied. -/
def denialOf {α : Type} (r : RouteResult α) : Option (Nat × String) :=
  match r with
  | .ok _ => none
  | .httpError s d => some (s, d)

/-! ## Theorems -/

/-- Claim C6: for every password p, `verify_password p (hash p)` is true,
and for distinct passwords p1 ≠ p2, `verify_password p1 (hash p2)` is
false, whatever salt the hasher drew. -/
theorem password_verify_correct (p p1 p2 salt : String) :
    verify_password p (get_password_hash p salt) = true ∧
    (p1 ≠ p2 → verify_password p1 (get_password_hash p2 salt) = false) := by
  constructor
  · simp [verify_password, get_password_hash, ideal_digest, pwd_schemes]
  · intro hne
    simp [verify_password, get_password_hash, ideal_digest, pwd_schemes, hne]

/-- Concrete instance of `password_verify_correct` at "pw123" versus
"pw124". -/
theorem password_verify_correct_witness :
    verify_password "pw123" (get_password_hash "pw123" "salty") = true ∧
    verify_password "pw124" (get_password_hash "pw123" "salty") = false :=
  ⟨(password_verify_correct "pw123" "x" "y" "salty").1,
   (password_verify_correct "x" "pw124" "pw123" "salty").2 (by decide)⟩

/-- Claim C3: verifying at time t a token issued for subject s at time t
succeeds and returns the payload whose subject is exactly s. -/
theorem issue_then_verify_roundtrips_subject (s : String) (t : Nat) :
    jwt_decode (create_access_token (some s) t) SECRET_KEY [ALGORITHM] t
      = .ok { sub := some s, exp := t + ACCESS_TOKEN_EXPIRE_MINUTES * 60 } := by
  simp [jwt_decode, create_access_token, ACCESS_TOKEN_EXPIRE_MINUTES]

/-- Claim C4: the TTL is fixed at 300 minutes; verification of a token
issued at t fails with Expired at every now ≥ t + TTL and succeeds at
every now < t + TTL (time in seconds). -/
theorem token_ttl_300_minutes (s : String) (t now : Nat) :
    ACCESS_TOKEN_EXPIRE_MINUTES = 300 ∧
    (t + ACCESS_TOKEN_EXPIRE_MINUTES * 60 ≤ now →
      jwt_decode (create_access_token (some s) t) SECRET_KEY [ALGORITHM] now
        = .error .expired) ∧
    (now < t + ACCESS_TOKEN_EXPIRE_MINUTES * 60 →
      jwt_decode (create_access_token (some s) t) SECRET_KEY [ALGORITHM] now
        = .ok { sub := some s, exp := t + ACCESS_TOKEN_EXPIRE_MINUTES * 60 }) := by
  refine ⟨rfl, ?_, ?_⟩
  · intro h
    simp [jwt_decode, create_access_token]
    exact h
  · intro h
    simp [jwt_decode, create_access_token, ACCESS_TOKEN_EXPIRE_MINUTES] at h ⊢
    omega

/-- Concrete instance of `token_ttl_300_minutes`: a token issued at 0
is rejected as expired at 18060 s (t + TTL + 60 s) and accepted at
17940 s (t + 299 min). -/
theorem token_ttl_300_minutes_witness :
    jwt_decode (create_access_token (some "alice") 0) SECRET_KEY [ALGORITHM] 18060
      = .error .expired ∧
    jwt_decode (create_access_token (some "alice") 0) SECRET_KEY [ALGORITHM] 17940
      = .ok { sub := some "alice", exp := 0 + ACCESS_TOKEN_EXPIRE_MINUTES * 60 } :=
  ⟨(token_ttl_300_minutes "alice" 0 18060).2.1 (by decide),
   (token_ttl_300_minutes "alice" 0 17940).2.2 (by decide)⟩

/-- Claim C1: for every failure cause — structurally invalid token, wrong
key or algorithm, expired token, or a subject that no longer resolves to
a stored user — `get_current_user` returns one and the same
`credentials_exception` (status 401, same message). -/
theorem guard_collapses_all_failures (db : List User) (now : Nat) :
    (∀ raw, get_current_user (.malformed raw) db now = credentials_exception) ∧
    (∀ p k a, k ≠ SECRET_KEY ∨ a ≠ ALGORITHM →
      get_current_user (.signed p k a) db now = credentials_exception) ∧
    (∀ p, p.exp ≤ now →
      get_current_user (.signed p SECRET_KEY ALGORITHM) db now
        = credentials_exception) ∧
    (∀ p s, now < p.exp → p.sub = some s → get_user_by_username db s = none →
      get_current_user (.signed p SECRET_KEY ALGORITHM) db now
        = credentials_exception) := by
  refine ⟨fun raw => rfl, ?_, ?_, ?_⟩
  · intro p k a h
    rcases h with h | h <;>
      simp [get_current_user, jwt_decode, h]
  · intro p h
    simp [get_current_user, jwt_decode, h]
  · intro p s hlt hsub hmiss
    simp [get_current_user, jwt_decode, Nat.not_le_of_lt hlt, hsub, hmiss]

/-- Concrete instances of `guard_collapses_all_failures`: all four causes
yield the identical 401 outcome on an empty user store at time 10. -/
theorem guard_collapses_all_failures_witness :
    get_current_user (.malformed "zzz") [] 10 = credentials_exception ∧
    get_current_user (.signed ⟨some "alice", 100⟩ "wrongkey" ALGORITHM) [] 10
      = credentials_exception ∧
    get_current_user (.signed ⟨some "alice", 5⟩ SECRET_KEY ALGORITHM) [] 10
      = credentials_exception ∧
    get_current_user (.signed ⟨some "alice", 100⟩ SECRET_KEY ALGORITHM) [] 10
      = credentials_exception :=
  ⟨(guard_collapses_all_failures [] 10).1 "zzz",
   (guard_collapses_all_failures [] 10).2.1 ⟨some "alice", 100⟩ "wrongkey"
     ALGORITHM (Or.inl (by decide)),
   (guard_collapses_all_failures [] 10).2.2.1 ⟨some "alice", 5⟩ (by decide),
   (guard_collapses_all_failures [] 10).2.2.2 ⟨some "alice", 100⟩ "alice"
     (by decide) rfl rfl⟩

/-- Claim C2: each protected single-resource operation checks existence
first, then ownership: a missing id yields 404, a foreign owner yields
403, and the owner proceeds (read returns the diagram, update returns the
patched diagram, delete returns 204/no body). -/
theorem routes_check_existence_then_ownership (diagrams : List Diagram)
    (diagram_id : Nat) (patch : DiagramUpdate) (current_user : User) :
    (get_diagram diagrams diagram_id = none →
      read_diagram diagrams diagram_id current_user
        = .httpError 404 "流程图未找到" ∧
      (update_diagram_route diagrams diagram_id patch current_user).fst
        = .httpError 404 "流程图未找到" ∧
      (delete_diagram_route diagrams diagram_id current_user).fst
        = .httpError 404 "流程图未找到") ∧
    (∀ d, get_diagram diagrams diagram_id = some d →
      d.user_id ≠ current_user.id →
      read_diagram diagrams diagram_id current_user
        = .httpError 403 "无权访问此资源" ∧
      (update_diagram_route diagrams diagram_id patch current_user).fst
        = .httpError 403 "无权访问此资源" ∧
      (delete_diagram_route diagrams diagram_id current_user).fst
        = .httpError 403 "无权访问此资源") ∧
    (∀ d, get_diagram diagrams diagram_id = some d →
      d.user_id = current_user.id →
      read_diagram diagrams diagram_id current_user = .ok d ∧
      (update_diagram_route diagrams diagram_id patch current_user).fst
        = .ok (update_diagram d patch) ∧
      (delete_diagram_route diagrams diagram_id current_user).fst
        = .ok ()) := by
  refine ⟨?_, ?_, ?_⟩
  · intro h
    simp [read_diagram, update_diagram_route, delete_diagram_route, h]
  · intro d h hne
    simp [read_diagram, update_diagram_route, delete_diagram_route, h, hne]
  · intro d h heq
    simp [read_diagram, update_diagram_route, delete_diagram_route, h, heq]

/-- Concrete instances of `routes_check_existence_then_ownership`: a
store holding one diagram owned by user 7; id 5 is 404 for everyone,
id 1 is 403 for user 8 and succeeds for user 7. -/
theorem routes_check_existence_then_ownership_witness :
    (read_diagram [⟨1, "t", none, none, 0, 0, 7⟩] 5
        ⟨8, "bob", "b@x.com", ⟨"argon2", "s", []⟩, 0⟩
      = .httpError 404 "流程图未找到") ∧
    (read_diagram [⟨1, "t", none, none, 0, 0, 7⟩] 1
        ⟨8, "bob", "b@x.com", ⟨"argon2", "s", []⟩, 0⟩
      = .httpError 403 "无权访问此资源") ∧
    ((delete_diagram_route [⟨1, "t", none, none, 0, 0, 7⟩] 1
        ⟨7, "alice", "a@x.com", ⟨"argon2", "s", []⟩, 0⟩).fst = .ok ()) :=
  ⟨((routes_check_existence_then_ownership [⟨1, "t", none, none, 0, 0, 7⟩] 5
      ⟨none, none⟩ ⟨8, "bob", "b@x.com", ⟨"argon2", "s", []⟩, 0⟩).1 rfl).1,
   ((routes_check_existence_then_ownership [⟨1, "t", none, none, 0, 0, 7⟩] 1
      ⟨none, none⟩ ⟨8, "bob", "b@x.com", ⟨"argon2", "s", []⟩, 0⟩).2.1
      ⟨1, "t", none, none, 0, 0, 7⟩ rfl (by decide)).1,
   ((routes_check_existence_then_ownership [⟨1, "t", none, none, 0, 0, 7⟩] 1
      ⟨none, none⟩ ⟨7, "alice", "a@x.com", ⟨"argon2", "s", []⟩, 0⟩).2.2
      ⟨1, "t", none, none, 0, 0, 7⟩ rfl rfl).2.2⟩

/-- Claim C5: the allow/deny decision is identical across the three
protected operations — the read route literally equals the spec's single
`authorize` decision, and the allow/deny outcome of the update and
delete routes equals the outcome of that same decision. This settles the
semantic half of the claim (no drift between the three checks); the
structural half fails on the code: src/app/main.py reimplements the
existence/ownership test inline in each of the three routes instead of
factoring it into one shared function, even though its comments say the
check logic is being reused. -/
theorem ownership_decision_single (diagrams : List Diagram)
    (diagram_id : Nat) (patch : DiagramUpdate) (current_user : User) :
    read_diagram diagrams diagram_id current_user
      = authorize diagrams diagram_id current_user ∧
    denialOf (update_diagram_route diagrams diagram_id patch current_user).fst
      = denialOf (authorize diagrams diagram_id current_user) ∧
    denialOf (delete_diagram_route diagrams diagram_id current_user).fst
      = denialOf (authorize diagrams diagram_id current_user) := by
  cases h : get_diagram diagrams diagram_id with
  | none =>
    simp [read_diagram, update_diagram_route, delete_diagram_route,
      authorize, denialOf, h]
  | some d =>
    by_cases ho : d.user_id = current_user.id <;>
      simp [read_diagram, update_diagram_route, delete_diagram_route,
        authorize, denialOf, h, ho]

/-- Claim C8: partial update applies exactly the patch fields that are
present — a present field takes the patch value, an absent one keeps the
stored value — and no other attribute of the row changes. -/
theorem update_applies_only_present_fields (d : Diagram)
    (patch : DiagramUpdate) :
    (update_diagram d patch).title = patch.title.getD d.title ∧
    (update_diagram d patch).content = patch.content.getD d.content ∧
    (update_diagram d patch).id = d.id ∧
    (update_diagram d patch).share_uuid = d.share_uuid ∧
    (update_diagram d patch).created_at = d.created_at ∧
    (update_diagram d patch).updated_at = d.updated_at ∧
    (update_diagram d patch).user_id = d.user_id := by
  rcases patch with ⟨pt, pc⟩
  cases pt <;> cases pc <;> simp [update_diagram]

/-- Claim C9: the diagram list is scoped to the caller — every returned
diagram is owned by the current user and the list holds at most `limit`
entries; absent query parameters default to skip 0 and limit 100. -/
theorem diagram_list_scoped_to_caller (diagrams : List Diagram)
    (skip limit : Nat) (current_user : User) (d : Diagram) :
    (d ∈ read_diagrams diagrams (some skip) (some limit) current_user →
      d.user_id = current_user.id) ∧
    (read_diagrams diagrams (some skip) (some limit) current_user).length
      ≤ limit ∧
    read_diagrams diagrams none none current_user
      = get_user_diagrams diagrams current_user.id 0 100 := by
  refine ⟨?_, ?_, rfl⟩
  · intro hmem
    have h1 : d ∈ (diagrams.filter
        (fun x => x.user_id == current_user.id)).drop skip :=
      List.mem_of_mem_take hmem
    have h2 : d ∈ diagrams.filter (fun x => x.user_id == current_user.id) :=
      List.mem_of_mem_drop h1
    have h3 := List.of_mem_filter h2
    exact eq_of_beq h3
  · exact List.length_take_le limit _

/-- Concrete instance of `diagram_list_scoped_to_caller`: listing with a
two-owner store returns only user 7 diagrams. -/
theorem diagram_list_scoped_to_caller_witness :
    (⟨1, "t", none, none, 0, 0, 7⟩ : Diagram).user_id
      = (⟨7, "alice", "a@x.com", ⟨"argon2", "s", []⟩, 0⟩ : User).id ∧
    (read_diagrams [⟨1, "t", none, none, 0, 0, 7⟩, ⟨2, "u", none, none, 0, 0, 8⟩]
      (some 0) (some 100)
      ⟨7, "alice", "a@x.com", ⟨"argon2", "s", []⟩, 0⟩).length ≤ 100 :=
  ⟨(diagram_list_scoped_to_caller
      [⟨1, "t", none, none, 0, 0, 7⟩, ⟨2, "u", none, none, 0, 0, 8⟩] 0 100
      ⟨7, "alice", "a@x.com", ⟨"argon2", "s", []⟩, 0⟩
      ⟨1, "t", none, none, 0, 0, 7⟩).1 (by decide),
   (diagram_list_scoped_to_caller
      [⟨1, "t", none, none, 0, 0, 7⟩, ⟨2, "u", none, none, 0, 0, 8⟩] 0 100
      ⟨7, "alice", "a@x.com", ⟨"argon2", "s", []⟩, 0⟩
      ⟨1, "t", none, none, 0, 0, 7⟩).2.1⟩

/-- Claim C10: when update or delete is denied (any HTTP error outcome,
404 or 403), the diagram store is returned exactly as it was — no
mutation occurs. -/
theorem denied_mutation_leaves_store (diagrams : List Diagram)
    (diagram_id : Nat) (patch : DiagramUpdate) (current_user : User) :
    (∀ s m,
      (update_diagram_route diagrams diagram_id patch current_user).fst
        = .httpError s m →
      (update_diagram_route diagrams diagram_id patch current_user).snd
        = diagrams) ∧
    (∀ s m,
      (delete_diagram_route diagrams diagram_id current_user).fst
        = .httpError s m →
      (delete_diagram_route diagrams diagram_id current_user).snd
        = diagrams) := by
  constructor <;> intro s m hfst
  · cases h : get_diagram diagrams diagram_id with
    | none => simp [update_diagram_route, h]
    | some d =>
      by_cases ho : (d.user_id != current_user.id) = true
      · simp [update_diagram_route, h, ho]
      · simp [update_diagram_route, h, ho] at hfst
  · cases h : get_diagram diagrams diagram_id with
    | none => simp [delete_diagram_route, h]
    | some d =>
      by_cases ho : (d.user_id != current_user.id) = true
      · simp [delete_diagram_route, h, ho]
      · simp [delete_diagram_route, h, ho] at hfst

/-- Concrete instance of `denied_mutation_leaves_store`: a denied update
and a denied delete on an empty store leave it empty. -/
theorem denied_mutation_leaves_store_witness :
    (update_diagram_route [] 1 ⟨none, none⟩
      ⟨7, "alice", "a@x.com", ⟨"argon2", "s", []⟩, 0⟩).snd = [] ∧
    (delete_diagram_route [] 1
      ⟨7, "alice", "a@x.com", ⟨"argon2", "s", []⟩, 0⟩).snd = [] :=
  ⟨(denied_mutation_leaves_store [] 1 (⟨none, none⟩ : DiagramUpdate)
      (⟨7, "alice", "a@x.com", ⟨"argon2", "s", []⟩, 0⟩ : User)).1
      404 "流程图未找到" rfl,
   (denied_mutation_leaves_store [] 1 (⟨none, none⟩ : DiagramUpdate)
      (⟨7, "alice", "a@x.com", ⟨"argon2", "s", []⟩, 0⟩ : User)).2
      404 "流程图未找到" rfl⟩

/-- Claim C7: the outward user representation carries only id, username,
email and created_at, and is independent of the stored password hash: a
hash change never changes `read_users_me`, and the registration response
is the same whatever salt (hence whatever hash value) the hasher drew. -/
theorem user_output_excludes_password_hash (u : User) (ph : PwdHash)
    (users : List User) (uc : UserCreate) (salt1 salt2 : String)
    (fresh_id now : Nat) :
    read_users_me u = { id := u.id, username := u.username
                        email := u.email, created_at := u.created_at } ∧
    read_users_me { u with password_hash := ph } = read_users_me u ∧
    (register_user users uc salt1 fresh_id now).fst
      = (register_user users uc salt2 fresh_id now).fst := by
  refine ⟨rfl, rfl, ?_⟩
  cases h1 : get_user_by_username users uc.username with
  | some w => simp [register_user, h1]
  | none =>
    cases h2 : get_user_by_email users uc.email with
    | some w => simp [register_user, h1, h2]
    | none => simp [register_user, h1, h2, userOutOfUser]

end DiagramApp
